import Mathlib

/-!
Verification of the github-mcp-server consolidated-command layer.

This file shallowly embeds the data model and the operation-dispatch /
validation layer of the repository:

* the zod schemas with their cross-field refine predicates
  (`src/tools/repos.ts`, the issues tool, `src/tools/branches.ts`,
  the actions tool);
* the `GitHubClient` gateway (`src/utils/github.ts`): `connect`,
  `getClient`, `disconnect` and the error classifier
  `handleGitHubError`;
* the per-domain `executeManageX` dispatchers and the surrounding
  `tool.execute` pipelines, with the gateway state threaded explicitly
  and every upstream interaction recorded in a call log;
* the token resolver, modelled from the spec (its implementation lives
  in the server entry point, which is not among the provided sources).

JavaScript-specific semantics that the source relies on are modelled
explicitly: truthiness of strings and numbers (empty string and zero are
falsy, used by the `!!data.field` required-field checks and by
`input.ref || 'main'` style defaults), `Map.set` replace-or-insert
semantics, and template-literal rendering of `undefined`.
-/

namespace GithubMcp

/-! ## Small JavaScript helpers -/

/-- JS truthiness of an optional string: `!!x` is true iff the field is
present and non-empty (the empty string is falsy). -/
def truthyS : Option String → Bool
  | none => false
  | some s => s ≠ ""

/-- JS truthiness of an optional number: `!!x` is true iff the field is
present and non-zero (0 is falsy). -/
def truthyN : Option Int → Bool
  | none => false
  | some n => n ≠ 0

/-- JS string-or-default `s || d`: the empty string is falsy and falls
through to the default. -/
def jsOr (s d : String) : String := if s = "" then d else s

/-- JS optional-string-or-default `x || d` (used for `input.ref || 'main'`
and `ghError.message || '...'`). -/
def jsOrOpt (o : Option String) (d : String) : String :=
  match o with
  | none => d
  | some s => jsOr s d

/-- Template-literal rendering of a possibly-undefined string. -/
def jsTemplate (o : Option String) : String :=
  match o with
  | none => "undefined"
  | some s => s

/-- Prefix test on character lists. -/
def charsPrefix : List Char → List Char → Bool
  | [], _ => true
  | _ :: _, [] => false
  | a :: as, b :: bs => a = b && charsPrefix as bs

/-- Infix test on character lists. -/
def charsInfix (sub : List Char) : List Char → Bool
  | [] => sub.isEmpty
  | b :: bs => charsPrefix sub (b :: bs) || charsInfix sub bs

/-- Substring test (case-sensitive). -/
def strContains (s sub : String) : Bool := charsInfix sub.toList s.toList

/-- ASCII-lowercased character code. -/
def lowerCode (c : Char) : Nat :=
  if 65 ≤ c.toNat ∧ c.toNat ≤ 90 then c.toNat + 32 else c.toNat

/-- Prefix test on character lists, ignoring ASCII case. -/
def charsPrefixCI : List Char → List Char → Bool
  | [], _ => true
  | _ :: _, [] => false
  | a :: as, b :: bs => lowerCode a = lowerCode b && charsPrefixCI as bs

/-- Infix test on character lists, ignoring ASCII case. -/
def charsInfixCI (sub : List Char) : List Char → Bool
  | [] => sub.isEmpty
  | b :: bs => charsPrefixCI sub (b :: bs) || charsInfixCI sub bs

/-- Substring test ignoring ASCII case, for phrase claims such as the
message containing "not found". -/
def strContainsCI (s sub : String) : Bool :=
  charsInfixCI sub.toList s.toList

/-- Replace-or-insert on an association list, the semantics of JS
`Map.set` as used for the gateway's client map. -/
def setAssoc (m : List (String × Nat)) (k : String) (v : Nat) :
    List (String × Nat) :=
  match m with
  | [] => [(k, v)]
  | (k', v') :: rest =>
    if k' = k then (k, v) :: rest else (k', v') :: setAssoc rest k v

/-- Lookup on the client association list, the semantics of JS
`Map.get`. -/
def lookupAssoc (m : List (String × Nat)) (k : String) : Option Nat :=
  match m with
  | [] => none
  | (k', v') :: rest => if k' = k then some v' else lookupAssoc rest k

/-! ## JSON values and `JSON.stringify(v, null, 2)`

The payloads the upstream API returns, and the synthetic acknowledgement
objects the dispatchers build, are JSON values. `jsonStringify` renders
exactly what `JSON.stringify(value, null, 2)` produces for them.
Rendering recurses through nested lists, so it is written against a fuel
bound (any bound at least the nesting depth gives the JS output; the
values in this development are finitely deep concrete objects). -/

inductive Json where
  | null : Json
  | bool (b : Bool) : Json
  | num (n : Int) : Json
  | str (s : String) : Json
  | arr (items : List Json) : Json
  | obj (fields : List (String × Json)) : Json

/-- JSON string escaping for the characters that can appear in this
development's payloads (quote, backslash, newline). -/
def escapeJsonChar (c : Char) : String :=
  if c = '"' then "\\\""
  else if c = '\\' then "\\\\"
  else if c = '\n' then "\\n"
  else String.singleton c

/-- Render a JSON string literal with surrounding quotes. -/
def jsonQuote (s : String) : String :=
  "\"" ++ String.join (s.toList.map escapeJsonChar) ++ "\""

/-- Spaces of a 2-space-per-level indent. -/
def indentOf (lvl : Nat) : String := String.mk (List.replicate (2 * lvl) ' ')

/-- Join rendered items with ",\n". -/
def joinLines : List String → String
  | [] => ""
  | [x] => x
  | x :: rest => x ++ ",\n" ++ joinLines rest

/-- Fuel-bounded body of `JSON.stringify(v, null, 2)`; `lvl` is the
current nesting level. -/
def jsonStringifyF : Nat → Json → Nat → String
  | 0, _, _ => ""
  | _ + 1, .null, _ => "null"
  | _ + 1, .bool true, _ => "true"
  | _ + 1, .bool false, _ => "false"
  | _ + 1, .num n, _ => toString n
  | _ + 1, .str s, _ => jsonQuote s
  | fuel + 1, .arr items, lvl =>
    match items with
    | [] => "[]"
    | _ =>
      "[\n" ++
        joinLines (items.map fun j =>
          indentOf (lvl + 1) ++ jsonStringifyF fuel j (lvl + 1)) ++
        "\n" ++ indentOf lvl ++ "]"
  | fuel + 1, .obj fields, lvl =>
    match fields with
    | [] => "\x7b\x7d"
    | _ =>
      "\x7b\n" ++
        joinLines (fields.map fun kv =>
          indentOf (lvl + 1) ++ jsonQuote kv.fst ++ ": " ++
            jsonStringifyF fuel kv.snd (lvl + 1)) ++
        "\n" ++ indentOf lvl ++ "\x7d"

/-- Rendering of `JSON.stringify(v, null, 2)` (fuel 1000 covers every
value in this development). -/
def jsonStringify (j : Json) : String := jsonStringifyF 1000 j 0

/-! ### A JSON reader

To state that a rendered text segment "parses as JSON equal to" a
payload, a small reader for the JSON fragment `jsonStringify` emits:
whitespace, string literals with the three escapes above, integers,
`true`/`false`/`null`, arrays and objects. Fuel-bounded like the
renderer. -/

/-- Drop leading JSON whitespace. -/
def skipWs : List Char → List Char
  | [] => []
  | c :: rest =>
    if c = ' ' || c = '\n' || c = '\t' || c = '\r' then skipWs rest
    else c :: rest

/-- Read the body of a string literal up to the closing quote. -/
def parseStringChars : List Char → Option (List Char × List Char)
  | [] => none
  | '"' :: rest => some ([], rest)
  | '\\' :: e :: rest =>
    (if e = '"' then some '"'
     else if e = '\\' then some '\\'
     else if e = 'n' then some '\n'
     else none).bind fun c =>
      (parseStringChars rest).map fun p => (c :: p.1, p.2)
  | c :: rest => (parseStringChars rest).map fun p => (c :: p.1, p.2)

/-- Split a maximal run of leading digits. -/
def takeDigits : List Char → List Char × List Char
  | [] => ([], [])
  | c :: rest =>
    if c.isDigit then
      let p := takeDigits rest
      (c :: p.1, p.2)
    else ([], c :: rest)

/-- Numeric value of a digit run. -/
def digitsVal (ds : List Char) : Nat :=
  ds.foldl (fun acc c => 10 * acc + (c.toNat - '0'.toNat)) 0

/-- Read an optionally-negated integer literal. -/
def parseIntLit (cs : List Char) : Option (Int × List Char) :=
  match cs with
  | '-' :: rest =>
    match takeDigits rest with
    | ([], _) => none
    | (ds, r) => some (-(digitsVal ds : Int), r)
  | _ =>
    match takeDigits cs with
    | ([], _) => none
    | (ds, r) => some ((digitsVal ds : Int), r)

mutual

/-- Fuel-bounded JSON value reader. -/
def parseJsonF : Nat → List Char → Option (Json × List Char)
  | 0, _ => none
  | fuel + 1, cs =>
    match skipWs cs with
    | '"' :: rest => (parseStringChars rest).map fun p => (.str (String.mk p.1), p.2)
    | 'n' :: 'u' :: 'l' :: 'l' :: rest => some (.null, rest)
    | 't' :: 'r' :: 'u' :: 'e' :: rest => some (.bool true, rest)
    | 'f' :: 'a' :: 'l' :: 's' :: 'e' :: rest => some (.bool false, rest)
    | '[' :: rest =>
      (match skipWs rest with
       | ']' :: r => some (.arr [], r)
       | r2 => (parseItemsF fuel r2).map fun p => (.arr p.1, p.2))
    | '\x7b' :: rest =>
      (match skipWs rest with
       | '\x7d' :: r => some (.obj [], r)
       | r2 => (parseFieldsF fuel r2).map fun p => (.obj p.1, p.2))
    | rest => (parseIntLit rest).map fun p => (.num p.1, p.2)

/-- Fuel-bounded reader of one-or-more array items up to `]`. -/
def parseItemsF : Nat → List Char → Option (List Json × List Char)
  | 0, _ => none
  | fuel + 1, cs =>
    (parseJsonF fuel cs).bind fun p =>
      match skipWs p.2 with
      | ',' :: rest =>
        (parseItemsF fuel rest).map fun q => (p.1 :: q.1, q.2)
      | ']' :: rest => some ([p.1], rest)
      | _ => none

/-- Fuel-bounded reader of one-or-more object fields up to the closing
brace. -/
def parseFieldsF : Nat → List Char → Option (List (String × Json) × List Char)
  | 0, _ => none
  | fuel + 1, cs =>
    match skipWs cs with
    | '"' :: rest =>
      (parseStringChars rest).bind fun pk =>
        match skipWs pk.2 with
        | ':' :: rest2 =>
          (parseJsonF fuel rest2).bind fun pv =>
            match skipWs pv.2 with
            | ',' :: rest3 =>
              (parseFieldsF fuel rest3).map fun q =>
                ((String.mk pk.1, pv.1) :: q.1, q.2)
            | '\x7d' :: rest3 => some ([(String.mk pk.1, pv.1)], rest3)
            | _ => none
        | _ => none
    | _ => none

end

/-- Parse a complete JSON document (fuel 1000, enough for every value
in this development). -/
def jsonParse (s : String) : Option Json :=
  match parseJsonF 1000 s.toList with
  | some (j, rest) => if skipWs rest = [] then some j else none
  | none => none

/-! ## Domain schemas

Each `manage_X` tool declares a zod object schema — an operation enum
plus a flat record in which every other field is structurally optional —
followed by a `.refine` predicate that checks the per-operation required
fields. The structures below are the parsed records; the
`manageXRefine` functions are the refine callbacks, with the JS `!!`
truthiness checks made explicit. -/

/-- Operation enum of `src/tools/repos.ts` (`RepoOperations`). -/
inductive RepoOperation where
  | create | delete | update | fork | get | list | transfer
  deriving DecidableEq, Fintype

/-- Enum `z.enum(['all','owner','public','private','member'])`; the JS
name `private` is rendered `private_`. -/
inductive RepoListType where
  | all | owner | public | private_ | member
  deriving DecidableEq

/-- Enum `z.enum(['created','updated','pushed','full_name'])`. -/
inductive RepoListSort where
  | created | updated | pushed | full_name
  deriving DecidableEq

/-- Enum `z.enum(['asc','desc'])`. -/
inductive SortDirection where
  | asc | desc
  deriving DecidableEq

/-- Parsed record of `ManageReposSchema`. The JS field `private` is
rendered `private_`. -/
structure ManageReposInput where
  token : Option String := none
  operation : RepoOperation
  owner : Option String := none
  repo : Option String := none
  name : Option String := none
  description : Option String := none
  private_ : Option Bool := none
  auto_init : Option Bool := none
  gitignore_template : Option String := none
  license_template : Option String := none
  new_name : Option String := none
  homepage : Option String := none
  has_issues : Option Bool := none
  has_projects : Option Bool := none
  has_wiki : Option Bool := none
  new_owner : Option String := none
  type : Option RepoListType := none
  sort : Option RepoListSort := none
  direction : Option SortDirection := none
  per_page : Option Int := none
  page : Option Int := none
  deriving DecidableEq

/-- Refine predicate of `ManageReposSchema` (`src/tools/repos.ts`,
lines 56-75). -/
def manageReposRefine (data : ManageReposInput) : Bool :=
  match data.operation with
  | .create => truthyS data.name
  | .get | .update | .delete | .fork => truthyS data.owner && truthyS data.repo
  | .transfer =>
    truthyS data.owner && truthyS data.repo && truthyS data.new_owner
  | .list => true

/-- Operation enum of the issues tool (`IssueOperations`). -/
inductive IssueOperation where
  | create | update | close | assign | label | comment | search | list | get
  deriving DecidableEq, Fintype

/-- Enum `z.enum(['open','closed'])`; the JS value `open` is rendered
`open_`. -/
inductive IssueState where
  | open_ | closed
  deriving DecidableEq

/-- Enum `z.enum(['completed','not_planned','reopened'])`. -/
inductive IssueStateReason where
  | completed | not_planned | reopened
  deriving DecidableEq

/-- Enum `z.enum(['created','updated','comments'])`. -/
inductive IssueSort where
  | created | updated | comments
  deriving DecidableEq

/-- Enum `z.enum(['open','closed','all'])`. -/
inductive IssueStateFilter where
  | open_ | closed | all
  deriving DecidableEq

/-- Parsed record of `ManageIssuesSchema`. -/
structure ManageIssuesInput where
  token : Option String := none
  operation : IssueOperation
  owner : Option String := none
  repo : Option String := none
  issue_number : Option Int := none
  title : Option String := none
  body : Option String := none
  labels : Option (List String) := none
  assignees : Option (List String) := none
  milestone : Option Int := none
  state : Option IssueState := none
  state_reason : Option IssueStateReason := none
  comment_body : Option String := none
  q : Option String := none
  sort : Option IssueSort := none
  order : Option SortDirection := none
  state_filter : Option IssueStateFilter := none
  labels_filter : Option String := none
  assignee : Option String := none
  creator : Option String := none
  mentioned : Option String := none
  since : Option String := none
  per_page : Option Int := none
  page : Option Int := none
  deriving DecidableEq

/-- Refine predicate of `ManageIssuesSchema` (issues tool, lines
65-87). -/
def manageIssuesRefine (data : ManageIssuesInput) : Bool :=
  match data.operation with
  | .create => truthyS data.owner && truthyS data.repo && truthyS data.title
  | .get | .update | .close | .assign | .label =>
    truthyS data.owner && truthyS data.repo && truthyN data.issue_number
  | .comment =>
    truthyS data.owner && truthyS data.repo && truthyN data.issue_number &&
      truthyS data.comment_body
  | .list => truthyS data.owner && truthyS data.repo
  | .search => truthyS data.q

/-- Operation enum of `src/tools/branches.ts` (`BranchOperations`). -/
inductive BranchOperation where
  | create | delete | get | list | protect | get_protection
  | update_protection
  deriving DecidableEq, Fintype

/-- Sub-schema `required_status_checks` of `BranchProtectionSchema`. -/
structure RequiredStatusChecks where
  strict : Bool
  contexts : List String
  deriving DecidableEq

/-- Sub-schema `required_pull_request_reviews` of
`BranchProtectionSchema`. -/
structure RequiredPullRequestReviews where
  required_approving_review_count : Option Int := none
  dismiss_stale_reviews : Option Bool := none
  require_code_owner_reviews : Option Bool := none
  deriving DecidableEq

/-- Sub-schema `restrictions` of `BranchProtectionSchema`. -/
structure ProtectionRestrictions where
  users : List String
  teams : List String
  deriving DecidableEq

/-- `BranchProtectionSchema`: each member is `.nullable().optional()`,
modelled as `Option (Option _)` (outer: present, inner: non-null). -/
structure BranchProtection where
  required_status_checks : Option (Option RequiredStatusChecks) := none
  enforce_admins : Option (Option Bool) := none
  required_pull_request_reviews : Option (Option RequiredPullRequestReviews) := none
  restrictions : Option (Option ProtectionRestrictions) := none
  deriving DecidableEq

/-- JS truthiness of an optional object: objects are always truthy, so
`!!x` is presence. -/
def truthyObj {α : Type} (o : Option α) : Bool := o.isSome

/-- Parsed record of `ManageBranchesSchema`. The JS field `protected`
is rendered `protected_`. -/
structure ManageBranchesInput where
  token : Option String := none
  operation : BranchOperation
  owner : Option String := none
  repo : Option String := none
  branch : Option String := none
  sha : Option String := none
  protection : Option BranchProtection := none
  protected_ : Option Bool := none
  per_page : Option Int := none
  page : Option Int := none
  deriving DecidableEq

/-- Refine predicate of `ManageBranchesSchema` (`src/tools/branches.ts`,
lines 66-85). -/
def manageBranchesRefine (data : ManageBranchesInput) : Bool :=
  match data.operation with
  | .create => truthyS data.owner && truthyS data.repo && truthyS data.branch
  | .get | .delete | .get_protection =>
    truthyS data.owner && truthyS data.repo && truthyS data.branch
  | .protect | .update_protection =>
    truthyS data.owner && truthyS data.repo && truthyS data.branch &&
      truthyObj data.protection
  | .list => truthyS data.owner && truthyS data.repo

/-- Operation enum of the actions tool (`ActionsOperations`). -/
inductive ActionsOperation where
  | list_workflows | get_workflow | trigger_workflow | list_runs | get_run
  | cancel_run | rerun_workflow | list_artifacts | get_artifact
  | download_artifact | list_secrets
  deriving DecidableEq, Fintype

/-- The `z.union([z.string(), z.number()])` type of `workflow_id`. -/
inductive StrOrNum where
  | s (v : String)
  | n (v : Int)
  deriving DecidableEq

/-- JS truthiness of an optional string-or-number. -/
def truthySN : Option StrOrNum → Bool
  | none => false
  | some (.s v) => v ≠ ""
  | some (.n v) => v ≠ 0

/-- A value of `WorkflowInputsSchema`'s record: string, number or
boolean. -/
inductive JsScalar where
  | s (v : String)
  | n (v : Int)
  | b (v : Bool)
  deriving DecidableEq

/-- Run-status filter enum of the actions schema. -/
inductive RunStatus where
  | completed | action_required | cancelled | failure | neutral | skipped
  | stale | success | timed_out | in_progress | queued | requested | waiting
  deriving DecidableEq

/-- Parsed record of `ManageActionsSchema`. -/
structure ManageActionsInput where
  token : Option String := none
  operation : ActionsOperation
  owner : Option String := none
  repo : Option String := none
  workflow_id : Option StrOrNum := none
  run_id : Option Int := none
  artifact_id : Option Int := none
  ref : Option String := none
  inputs : Option (List (String × JsScalar)) := none
  status : Option RunStatus := none
  actor : Option String := none
  branch : Option String := none
  event : Option String := none
  created : Option String := none
  per_page : Option Int := none
  page : Option Int := none
  deriving DecidableEq

/-- Refine predicate of `ManageActionsSchema` (actions tool, lines
62-85). -/
def manageActionsRefine (data : ManageActionsInput) : Bool :=
  match data.operation with
  | .list_workflows | .list_runs | .list_artifacts | .list_secrets =>
    truthyS data.owner && truthyS data.repo
  | .get_workflow | .trigger_workflow =>
    truthyS data.owner && truthyS data.repo && truthySN data.workflow_id
  | .get_run | .cancel_run | .rerun_workflow =>
    truthyS data.owner && truthyS data.repo && truthyN data.run_id
  | .get_artifact | .download_artifact =>
    truthyS data.owner && truthyS data.repo && truthyN data.artifact_id

/-! ## Required-field tables

For the minimal-input property, each domain gets the set of fields its
refine predicate can require, the per-operation required set as the spec
tables state it, and a builder producing the input that supplies the
operation tag plus exactly a given set of fields (with fixed non-empty,
non-zero sample values, since the JS checks are truthiness checks). -/

/-- Fields the repository refine predicate can require. -/
inductive RepoField where
  | owner | repo | name | new_owner
  deriving DecidableEq, Fintype

/-- Required fields per repository operation, per the spec table in
§4.3. -/
def repoRequired : RepoOperation → List RepoField
  | .create => [.name]
  | .get => [.owner, .repo]
  | .update => [.owner, .repo]
  | .delete => [.owner, .repo]
  | .fork => [.owner, .repo]
  | .transfer => [.owner, .repo, .new_owner]
  | .list => []

/-- Repository input supplying the operation tag plus exactly the given
fields. -/
def repoInputWith (op : RepoOperation) (fs : List RepoField) :
    ManageReposInput :=
  { operation := op
    owner := if fs.contains .owner then some "octo-owner" else none
    repo := if fs.contains .repo then some "octo-repo" else none
    name := if fs.contains .name then some "octo-name" else none
    new_owner := if fs.contains .new_owner then some "octo-new" else none }

/-- Fields the issues refine predicate can require. -/
inductive IssueField where
  | owner | repo | title | issue_number | comment_body | q
  deriving DecidableEq, Fintype

/-- Required fields per issue operation, per the spec (§4.3: issue
create requires owner+repo+title; comment requires additionally
comment_body). -/
def issueRequired : IssueOperation → List IssueField
  | .create => [.owner, .repo, .title]
  | .get => [.owner, .repo, .issue_number]
  | .update => [.owner, .repo, .issue_number]
  | .close => [.owner, .repo, .issue_number]
  | .assign => [.owner, .repo, .issue_number]
  | .label => [.owner, .repo, .issue_number]
  | .comment => [.owner, .repo, .issue_number, .comment_body]
  | .list => [.owner, .repo]
  | .search => [.q]

/-- Issue input supplying the operation tag plus exactly the given
fields. -/
def issueInputWith (op : IssueOperation) (fs : List IssueField) :
    ManageIssuesInput :=
  { operation := op
    owner := if fs.contains .owner then some "octo-owner" else none
    repo := if fs.contains .repo then some "octo-repo" else none
    title := if fs.contains .title then some "a title" else none
    issue_number := if fs.contains .issue_number then some 7 else none
    comment_body := if fs.contains .comment_body then some "a comment" else none
    q := if fs.contains .q then some "is:open" else none }

/-- Fields the branches refine predicate can require. -/
inductive BranchField where
  | owner | repo | branch | protection
  deriving DecidableEq, Fintype

/-- Required fields per branch operation, per the spec (§4.3: branch
protect/update_protection require branch+protection object). -/
def branchRequired : BranchOperation → List BranchField
  | .create => [.owner, .repo, .branch]
  | .get => [.owner, .repo, .branch]
  | .delete => [.owner, .repo, .branch]
  | .get_protection => [.owner, .repo, .branch]
  | .protect => [.owner, .repo, .branch, .protection]
  | .update_protection => [.owner, .repo, .branch, .protection]
  | .list => [.owner, .repo]

/-- Branch input supplying the operation tag plus exactly the given
fields. -/
def branchInputWith (op : BranchOperation) (fs : List BranchField) :
    ManageBranchesInput :=
  { operation := op
    owner := if fs.contains .owner then some "octo-owner" else none
    repo := if fs.contains .repo then some "octo-repo" else none
    branch := if fs.contains .branch then some "feature" else none
    protection := if fs.contains .protection then some {} else none }

/-- Fields the actions refine predicate can require. -/
inductive ActionsField where
  | owner | repo | workflow_id | run_id | artifact_id
  deriving DecidableEq, Fintype

/-- Required fields per actions operation, per the spec (§4.3: actions
operations split into repo-level, workflow-level, run-level and
artifact-level required-ID groups). -/
def actionsRequired : ActionsOperation → List ActionsField
  | .list_workflows => [.owner, .repo]
  | .list_runs => [.owner, .repo]
  | .list_artifacts => [.owner, .repo]
  | .list_secrets => [.owner, .repo]
  | .get_workflow => [.owner, .repo, .workflow_id]
  | .trigger_workflow => [.owner, .repo, .workflow_id]
  | .get_run => [.owner, .repo, .run_id]
  | .cancel_run => [.owner, .repo, .run_id]
  | .rerun_workflow => [.owner, .repo, .run_id]
  | .get_artifact => [.owner, .repo, .artifact_id]
  | .download_artifact => [.owner, .repo, .artifact_id]

/-- Actions input supplying the operation tag plus exactly the given
fields. -/
def actionsInputWith (op : ActionsOperation) (fs : List ActionsField) :
    ManageActionsInput :=
  { operation := op
    owner := if fs.contains .owner then some "octo-owner" else none
    repo := if fs.contains .repo then some "octo-repo" else none
    workflow_id := if fs.contains .workflow_id then some (.s "ci.yml") else none
    run_id := if fs.contains .run_id then some 42 else none
    artifact_id := if fs.contains .artifact_id then some 99 else none }

/-! ## Errors and the classifier

`McpError` carries an MCP error code and a message. Values thrown by
the upstream client library are one of: an object carrying a numeric
`status` (the octokit request error, also an `Error` instance), a plain
`Error`, a non-`Error` value, or an already-constructed `McpError`. -/

/-- The two MCP error codes the source uses. -/
inductive ErrorCode where
  | invalidParams
  | internalError
  deriving DecidableEq

/-- Model of the SDK's `McpError`. -/
structure McpError where
  code : ErrorCode
  message : String
  deriving DecidableEq

/-- A thrown JS value as `handleGitHubError` and the catch blocks
discriminate it. -/
inductive Thrown where
  | mcp (e : McpError)
  | gh (status : Int) (message : String)
  | err (message : String)
  | nonError (asString : String)
  deriving DecidableEq

/-- JS `error instanceof Error ? error.message : String(error)` (an
octokit error and an `McpError` are both `Error` instances). -/
def thrownMessage : Thrown → String
  | .mcp e => e.message
  | .gh _ m => m
  | .err m => m
  | .nonError s => s

/-- The classifier `GitHubClient.handleGitHubError`
(`src/utils/github.ts`, lines 77-115). -/
def handleGitHubError (e : Thrown) (context : String) : McpError :=
  match e with
  | .gh status message =>
    if status = 401 then
      ⟨.invalidParams,
        context ++ ": Invalid or expired GitHub token. Please check your authentication."⟩
    else if status = 403 then
      ⟨.invalidParams,
        context ++ ": Access forbidden. Check your token permissions or rate limits."⟩
    else if status = 404 then
      ⟨.invalidParams,
        context ++ ": Resource not found. Check repository/organization names."⟩
    else if status = 422 then
      ⟨.invalidParams,
        context ++ ": Invalid request parameters. " ++ jsOr message ""⟩
    else
      ⟨.internalError,
        context ++ ": GitHub API error (" ++ toString status ++ "): " ++
          jsOr message "Unknown error"⟩
  | .mcp e => ⟨.internalError, context ++ ": " ++ e.message⟩
  | .err m => ⟨.internalError, context ++ ": " ++ m⟩
  | .nonError _ => ⟨.internalError, context ++ ": Unknown error occurred"⟩

/-! ## The gateway (`GitHubClient`)

The singleton's mutable fields — the token-keyed client map and the
default client — are threaded explicitly. Octokit instances are
numbered in creation order, so "the most recently connected client" is
the highest-numbered one. -/

/-- The mutable state of the `GitHubClient` singleton. -/
structure GatewayState where
  clients : List (String × Nat)
  defaultClient : Option Nat
  nextId : Nat
  deriving DecidableEq

/-- The gateway state at process start. -/
def initialGateway : GatewayState := ⟨[], none, 0⟩

/-- The state update a successful `connect(token)` performs:
`this.clients.set(token, octokit); this.defaultClient = octokit` with a
fresh client. -/
def connectSet (st : GatewayState) (token : String) : GatewayState :=
  { clients := setAssoc st.clients token st.nextId
    defaultClient := some st.nextId
    nextId := st.nextId + 1 }

/-- The state update `disconnect()` performs: `this.clients.clear();
this.defaultClient = undefined`. -/
def disconnectGw (st : GatewayState) : GatewayState :=
  { st with clients := [], defaultClient := none }

/-- `GitHubClient.getClient` (`src/utils/github.ts`, lines 48-64):
`if (token && this.clients.has(token))` return that client, else the
default client, else throw. Note the JS truthiness guard: an empty
string never reaches the map lookup. `none` is the thrown case. -/
def getClient (st : GatewayState) (token : Option String) : Option Nat :=
  match token with
  | some t =>
    if t ≠ "" then
      match lookupAssoc st.clients t with
      | some c => some c
      | none => st.defaultClient
    else st.defaultClient
  | none => st.defaultClient

/-- The error `getClient` throws when no client is available. -/
def noClientError : McpError :=
  ⟨.invalidParams, "No GitHub client available. Please connect first."⟩

/-! ### Gateway traces

For properties about reachable gateway states, a trace is the sequence
of gateway events a process lifetime can produce: successful connects,
failed connects (which leave the state untouched, since the exception is
raised before `clients.set`), and disconnects. -/

/-- One gateway event. -/
inductive GwOp where
  | connectOk (token : String)
  | connectFail (token : String)
  | disconnect
  deriving DecidableEq

/-- Apply one gateway event to a state. -/
def applyGwOp (st : GatewayState) : GwOp → GatewayState
  | .connectOk token => connectSet st token
  | .connectFail _ => st
  | .disconnect => disconnectGw st

/-- Run a trace from a starting state. -/
def runGwFrom (st : GatewayState) : List GwOp → GatewayState
  | [] => st
  | op :: rest => runGwFrom (applyGwOp st op) rest

/-- Run a trace from the initial state. -/
def runGw (tr : List GwOp) : GatewayState := runGwFrom initialGateway tr

/-- The client number of the most recent successful connect that is not
followed by a disconnect — computed directly from the trace, counting
successful connects from `n` and carrying the current answer. -/
def lastConnAux : List GwOp → Nat → Option Nat → Option Nat
  | [], _, acc => acc
  | .connectOk _ :: rest, n, _ => lastConnAux rest (n + 1) (some n)
  | .connectFail _ :: rest, n, acc => lastConnAux rest n acc
  | .disconnect :: rest, n, _ => lastConnAux rest n none

/-- The most recently connected client of a trace (`none` when no
successful connect happened since the last disconnect). -/
def lastConn (tr : List GwOp) : Option Nat := lastConnAux tr 0 none

/-! ## Upstream calls

Every interaction with the upstream client library is recorded as a
`GhCall`. Parameters forwarded from the input with a `!` non-null
assertion stay `Option`-typed: the assertion is a TypeScript type cast
and passes the possibly-undefined value through unchanged. -/

/-- One upstream client-library call with its parameters. -/
inductive GhCall where
  | getAuthenticated (token : String)
  | reposCreateForAuthenticatedUser (name : Option String)
      (description : Option String) (private_ : Option Bool)
      (auto_init : Option Bool) (gitignore_template : Option String)
      (license_template : Option String)
  | reposGet (owner repo : Option String)
  | reposUpdate (owner repo : Option String)
      (name description homepage : Option String)
      (private_ has_issues has_projects has_wiki : Option Bool)
  | reposDelete (owner repo : Option String)
  | reposCreateFork (owner repo : Option String)
  | reposTransfer (owner repo new_owner : Option String)
  | reposListForAuthenticatedUser (type : Option RepoListType)
      (sort : Option RepoListSort) (direction : Option SortDirection)
      (per_page page : Option Int)
  | issuesCreate (owner repo title : Option String) (body : Option String)
      (labels assignees : Option (List String)) (milestone : Option Int)
  | issuesGet (owner repo : Option String) (issue_number : Option Int)
  | issuesUpdate (owner repo : Option String) (issue_number : Option Int)
      (title body : Option String) (state : Option IssueState)
      (state_reason : Option IssueStateReason)
      (labels assignees : Option (List String)) (milestone : Option Int)
  | issuesCreateComment (owner repo : Option String)
      (issue_number : Option Int) (body : Option String)
  | issuesListForRepo (owner repo : Option String) (state : IssueStateFilter)
      (labels assignee creator mentioned since : Option String)
      (sort : Option IssueSort) (direction : Option SortDirection)
      (per_page page : Option Int)
  | searchIssuesAndPullRequests (q : Option String) (sort : Option IssueSort)
      (order : Option SortDirection) (per_page page : Option Int)
  | actionsListRepoWorkflows (owner repo : Option String)
      (per_page page : Option Int)
  | actionsGetWorkflow (owner repo : Option String)
      (workflow_id : Option StrOrNum)
  | actionsCreateWorkflowDispatch (owner repo : Option String)
      (workflow_id : Option StrOrNum) (ref : String)
      (inputs : List (String × JsScalar))
  | actionsListWorkflowRuns (owner repo : Option String)
      (workflow_id : Option StrOrNum) (actor branch event : Option String)
      (status : Option RunStatus) (created : Option String)
      (per_page page : Option Int)
  | actionsGetWorkflowRun (owner repo : Option String) (run_id : Option Int)
  | actionsCancelWorkflowRun (owner repo : Option String)
      (run_id : Option Int)
  | actionsReRunWorkflow (owner repo : Option String) (run_id : Option Int)
  | actionsListArtifactsForRepo (owner repo : Option String)
      (per_page page : Option Int)
  | actionsGetArtifact (owner repo : Option String)
      (artifact_id : Option Int)
  | actionsDownloadArtifact (owner repo : Option String)
      (artifact_id : Option Int) (archive_format : String)
  | actionsListRepoSecrets (owner repo : Option String)
      (per_page page : Option Int)
  deriving DecidableEq

/-- An upstream response: the HTTP status, the `data` payload, and the
`url` field (read by `download_artifact`). -/
structure Resp where
  status : Int
  data : Json
  url : String

/-- A stub of the upstream service: the outcome of the authenticated
identity check per token, and the outcome of each data call. -/
structure UpstreamStub where
  auth : String → Except Thrown Unit
  call : GhCall → Except Thrown Resp

/-- Result of running a dispatcher: the returned value or thrown error,
the gateway state at return, and the upstream calls issued. -/
structure ExecOut (α : Type) where
  result : Except McpError α
  state : GatewayState
  calls : List GhCall

/-- The shared body of the three `executeManageX` dispatchers: resolve
the token (outside the `try`, so a resolver failure skips the
`finally`), `connect` (classifying its failure), `getClient`, issue the
dispatch call (a non-`McpError` failure there is wrapped, unclassified,
as `InternalError` with the domain's prefix; an `McpError` is rethrown
as-is), and always `disconnect` in the `finally`. -/
def execPipeline (failPrefix : String)
    (getTok : Option String → Except McpError String)
    (stub : UpstreamStub) (tokenField : Option String) (c : GhCall)
    (st : GatewayState) : ExecOut Resp :=
  match getTok tokenField with
  | .error e => ⟨.error e, st, []⟩
  | .ok token =>
    match stub.auth token with
    | .error t =>
      ⟨.error (handleGitHubError t "Failed to connect to GitHub API"),
        disconnectGw st, [.getAuthenticated token]⟩
    | .ok _ =>
      let st1 := connectSet st token
      match getClient st1 (some token) with
      | none => ⟨.error noClientError, disconnectGw st1, [.getAuthenticated token]⟩
      | some _ =>
        match stub.call c with
        | .ok resp =>
          ⟨.ok resp, disconnectGw st1, [.getAuthenticated token, c]⟩
        | .error t =>
          ⟨.error (match t with
              | .mcp m => m
              | _ => ⟨.internalError, failPrefix ++ thrownMessage t⟩),
            disconnectGw st1, [.getAuthenticated token, c]⟩

/-- The dispatch table of `executeManageRepos` (`src/tools/repos.ts`,
lines 93-170): the one upstream call each operation issues. -/
def repoDispatchCall (data : ManageReposInput) : GhCall :=
  match data.operation with
  | .create =>
    .reposCreateForAuthenticatedUser data.name data.description data.private_
      data.auto_init data.gitignore_template data.license_template
  | .get => .reposGet data.owner data.repo
  | .update =>
    .reposUpdate data.owner data.repo data.new_name data.description
      data.homepage data.private_ data.has_issues data.has_projects
      data.has_wiki
  | .delete => .reposDelete data.owner data.repo
  | .fork => .reposCreateFork data.owner data.repo
  | .transfer => .reposTransfer data.owner data.repo data.new_owner
  | .list =>
    .reposListForAuthenticatedUser data.type data.sort data.direction
      data.per_page data.page

/-- The per-operation result shaping of `executeManageRepos`: `delete`
builds a synthetic acknowledgement object, every other operation
returns `result.data` unchanged. -/
def repoShape (data : ManageReposInput) (resp : Resp) : Json :=
  match data.operation with
  | .delete =>
    .obj [("deleted", .bool true),
          ("repository",
            .str (jsTemplate data.owner ++ "/" ++ jsTemplate data.repo))]
  | _ => resp.data

/-- `executeManageRepos` with the gateway state and call log made
explicit. -/
def executeManageRepos (getTok : Option String → Except McpError String)
    (stub : UpstreamStub) (data : ManageReposInput) (st : GatewayState) :
    ExecOut (RepoOperation × Json) :=
  let out := execPipeline "Repository operation failed: " getTok stub
    data.token (repoDispatchCall data) st
  ⟨out.result.map (fun resp => (data.operation, repoShape data resp)),
    out.state, out.calls⟩

/-- The dispatch table of `executeManageIssues` (issues tool, lines
105-219). `close`, `assign` and `label` all go through
`issues.update`: `close` forces `state: 'closed'` and defaults
`state_reason` to `completed`; `assign` and `label` pass
`input.assignees || []` resp. `input.labels || []` — an explicit empty
array when the field is absent. -/
def issueDispatchCall (data : ManageIssuesInput) : GhCall :=
  match data.operation with
  | .create =>
    .issuesCreate data.owner data.repo data.title data.body data.labels
      data.assignees data.milestone
  | .get => .issuesGet data.owner data.repo data.issue_number
  | .update =>
    .issuesUpdate data.owner data.repo data.issue_number data.title data.body
      data.state data.state_reason data.labels data.assignees data.milestone
  | .close =>
    .issuesUpdate data.owner data.repo data.issue_number none none
      (some .closed) (some (data.state_reason.getD .completed)) none none none
  | .assign =>
    .issuesUpdate data.owner data.repo data.issue_number none none none none
      none (some (data.assignees.getD [])) none
  | .label =>
    .issuesUpdate data.owner data.repo data.issue_number none none none none
      (some (data.labels.getD [])) none none
  | .comment =>
    .issuesCreateComment data.owner data.repo data.issue_number
      data.comment_body
  | .list =>
    .issuesListForRepo data.owner data.repo (data.state_filter.getD .open_)
      data.labels_filter data.assignee data.creator data.mentioned data.since
      data.sort data.order data.per_page data.page
  | .search =>
    .searchIssuesAndPullRequests data.q data.sort data.order data.per_page
      data.page

/-- `executeManageIssues`: every operation returns `result.data`
unchanged. -/
def executeManageIssues (getTok : Option String → Except McpError String)
    (stub : UpstreamStub) (data : ManageIssuesInput) (st : GatewayState) :
    ExecOut (IssueOperation × Json) :=
  let out := execPipeline "Issue operation failed: " getTok stub data.token
    (issueDispatchCall data) st
  ⟨out.result.map (fun resp => (data.operation, resp.data)), out.state,
    out.calls⟩

/-- The dispatch table of `executeManageActions` (actions tool, lines
103-224). `trigger_workflow` defaults `ref` to the literal `'main'`
(`input.ref || 'main'`) and `inputs` to the empty object; `list_runs`
includes `workflow_id` only when it is truthy. -/
def actionsDispatchCall (data : ManageActionsInput) : GhCall :=
  match data.operation with
  | .list_workflows =>
    .actionsListRepoWorkflows data.owner data.repo data.per_page data.page
  | .get_workflow => .actionsGetWorkflow data.owner data.repo data.workflow_id
  | .trigger_workflow =>
    .actionsCreateWorkflowDispatch data.owner data.repo data.workflow_id
      (jsOrOpt data.ref "main") (data.inputs.getD [])
  | .list_runs =>
    .actionsListWorkflowRuns data.owner data.repo
      (if truthySN data.workflow_id then data.workflow_id else none)
      data.actor data.branch data.event data.status data.created
      data.per_page data.page
  | .get_run => .actionsGetWorkflowRun data.owner data.repo data.run_id
  | .cancel_run => .actionsCancelWorkflowRun data.owner data.repo data.run_id
  | .rerun_workflow => .actionsReRunWorkflow data.owner data.repo data.run_id
  | .list_artifacts =>
    .actionsListArtifactsForRepo data.owner data.repo data.per_page data.page
  | .get_artifact => .actionsGetArtifact data.owner data.repo data.artifact_id
  | .download_artifact =>
    .actionsDownloadArtifact data.owner data.repo data.artifact_id "zip"
  | .list_secrets =>
    .actionsListRepoSecrets data.owner data.repo data.per_page data.page

/-- The per-operation result shaping of `executeManageActions`:
`trigger_workflow`, `cancel_run`, `rerun_workflow` and
`download_artifact` build synthetic acknowledgement objects, every
other operation returns `result.data`. -/
def actionsShape (data : ManageActionsInput) (resp : Resp) : Json :=
  match data.operation with
  | .trigger_workflow =>
    .obj [("message", .str "Workflow triggered successfully"),
          ("status", .num resp.status)]
  | .cancel_run =>
    .obj [("message", .str "Workflow run cancelled successfully"),
          ("status", .num resp.status)]
  | .rerun_workflow =>
    .obj [("message", .str "Workflow rerun triggered successfully"),
          ("status", .num resp.status)]
  | .download_artifact =>
    .obj [("message", .str "Artifact download URL generated"),
          ("download_url", .str resp.url), ("status", .num resp.status)]
  | _ => resp.data

/-- `executeManageActions` with the gateway state and call log made
explicit. -/
def executeManageActions (getTok : Option String → Except McpError String)
    (stub : UpstreamStub) (data : ManageActionsInput) (st : GatewayState) :
    ExecOut (ActionsOperation × Json) :=
  let out := execPipeline "GitHub Actions operation failed: " getTok stub
    data.token (actionsDispatchCall data) st
  ⟨out.result.map (fun resp => (data.operation, actionsShape data resp)),
    out.state, out.calls⟩

/-! ## Tool-level execute

`tool.execute` runs `Schema.safeParse` on the raw params and, on
failure, returns the `Invalid input` envelope without touching the
gateway. Raw params are either a structurally ill-typed value
(`z.object` rejects it) or a well-typed record that still has to pass
the refine predicate; `safeParse` fails on either. A zod failure is
reported as `Invalid input: ${validationResult.error.format()}` — and a
JS template literal renders the object `error.format()` returns as
`[object Object]`. -/

/-- Raw params before `safeParse`. -/
inductive RawParams (α : Type) where
  | malformed (description : String)
  | wellTyped (data : α)

/-- `ManageReposSchema.safeParse`: structural parse then refine. -/
def safeParseRepos : RawParams ManageReposInput → Option ManageReposInput
  | .malformed _ => none
  | .wellTyped d => if manageReposRefine d then some d else none

/-- `ManageIssuesSchema.safeParse`: structural parse then refine. -/
def safeParseIssues : RawParams ManageIssuesInput → Option ManageIssuesInput
  | .malformed _ => none
  | .wellTyped d => if manageIssuesRefine d then some d else none

/-- `ManageActionsSchema.safeParse`: structural parse then refine. -/
def safeParseActions : RawParams ManageActionsInput → Option ManageActionsInput
  | .malformed _ => none
  | .wellTyped d => if manageActionsRefine d then some d else none

/-- The uniform output envelope: ordered text segments plus the error
flag, which is absent on success (`isError` is simply not set). -/
structure ToolOutput where
  content : List String
  isError : Option Bool
  deriving DecidableEq

/-- Result of a tool-level execute: the envelope, the gateway state at
return, and the upstream calls issued. -/
structure ToolRun where
  output : ToolOutput
  state : GatewayState
  calls : List GhCall

/-- The string a repository operation tag renders to in a template
literal. -/
def repoOpName : RepoOperation → String
  | .create => "create"
  | .delete => "delete"
  | .update => "update"
  | .fork => "fork"
  | .get => "get"
  | .list => "list"
  | .transfer => "transfer"

/-- The string an issue operation tag renders to in a template
literal. -/
def issueOpName : IssueOperation → String
  | .create => "create"
  | .update => "update"
  | .close => "close"
  | .assign => "assign"
  | .label => "label"
  | .comment => "comment"
  | .search => "search"
  | .list => "list"
  | .get => "get"

/-- The string an actions operation tag renders to in a template
literal. -/
def actionsOpName : ActionsOperation → String
  | .list_workflows => "list_workflows"
  | .get_workflow => "get_workflow"
  | .trigger_workflow => "trigger_workflow"
  | .list_runs => "list_runs"
  | .get_run => "get_run"
  | .cancel_run => "cancel_run"
  | .rerun_workflow => "rerun_workflow"
  | .list_artifacts => "list_artifacts"
  | .get_artifact => "get_artifact"
  | .download_artifact => "download_artifact"
  | .list_secrets => "list_secrets"

/-- The envelope `tool.execute` returns when `safeParse` fails. -/
def invalidInputOutput : ToolOutput :=
  ⟨["Invalid input: [object Object]"], some true⟩

/-- `manageReposTool.execute` (`src/tools/repos.ts`, lines 191-218). -/
def manageReposExecute (getTok : Option String → Except McpError String)
    (stub : UpstreamStub) (raw : RawParams ManageReposInput)
    (st : GatewayState) : ToolRun :=
  match safeParseRepos raw with
  | none => ⟨invalidInputOutput, st, []⟩
  | some data =>
    let out := executeManageRepos getTok stub data st
    match out.result with
    | .ok (op, payload) =>
      ⟨⟨["Repository " ++ repoOpName op ++ " operation completed successfully",
          jsonStringify payload], none⟩, out.state, out.calls⟩
    | .error e =>
      ⟨⟨["Error: " ++ e.message], some true⟩, out.state, out.calls⟩

/-- `manageIssuesTool.execute` (issues tool, lines 240-267). -/
def manageIssuesExecute (getTok : Option String → Except McpError String)
    (stub : UpstreamStub) (raw : RawParams ManageIssuesInput)
    (st : GatewayState) : ToolRun :=
  match safeParseIssues raw with
  | none => ⟨invalidInputOutput, st, []⟩
  | some data =>
    let out := executeManageIssues getTok stub data st
    match out.result with
    | .ok (op, payload) =>
      ⟨⟨["Issue " ++ issueOpName op ++ " operation completed successfully",
          jsonStringify payload], none⟩, out.state, out.calls⟩
    | .error e =>
      ⟨⟨["Error: " ++ e.message], some true⟩, out.state, out.calls⟩

/-- `manageActionsTool.execute` (actions tool, lines 246-275). -/
def manageActionsExecute (getTok : Option String → Except McpError String)
    (stub : UpstreamStub) (raw : RawParams ManageActionsInput)
    (st : GatewayState) : ToolRun :=
  match safeParseActions raw with
  | none => ⟨invalidInputOutput, st, []⟩
  | some data =>
    let out := executeManageActions getTok stub data st
    match out.result with
    | .ok (op, payload) =>
      ⟨⟨["GitHub Actions " ++ actionsOpName op ++
          " operation completed successfully", jsonStringify payload], none⟩,
        out.state, out.calls⟩
    | .error e =>
      ⟨⟨["Error: " ++ e.message], some true⟩, out.state, out.calls⟩

/-! ## Token resolver -/

/-- The error `getGitHubToken` throws when no source yields a token. -/
def missingTokenError : McpError :=
  ⟨.invalidParams,
    "No GitHub token provided. Provide one in the tool arguments, via the --token CLI option, or set the GITHUB_TOKEN environment variable."⟩

/-- `getGitHubToken` (server entry point, concatenated into
`src/examples/basic-usage.js`): resolves the effective credential from
the per-call argument, the `--token` CLI option (`options.token`) and
the `GITHUB_TOKEN` environment variable, in that order. Each level is
guarded by a plain JS truthiness check (`if (tokenArg)` etc.), so an
empty-string value at any level is treated as absent and falls through;
when nothing truthy is found it throws the `McpError` above. -/
def getGitHubToken (tokenArg cliToken envToken : Option String) :
    Except McpError String :=
  if truthyS tokenArg then .ok (tokenArg.getD "")
  else if truthyS cliToken then .ok (cliToken.getD "")
  else if truthyS envToken then .ok (envToken.getD "")
  else .error missingTokenError

/-! ## Shared lemmas -/

/-- `Map.get` after `Map.set` of the same key finds the new value. -/
theorem lookupAssoc_setAssoc (m : List (String × Nat)) (k : String) (v : Nat) :
    lookupAssoc (setAssoc m k v) k = some v := by
  induction m with
  | nil => simp [setAssoc, lookupAssoc]
  | cons hd tl ih =>
    obtain ⟨k', v'⟩ := hd
    by_cases h : k' = k
    · simp [setAssoc, lookupAssoc, h]
    · simp [setAssoc, lookupAssoc, h, ih]

/-- Right after a successful `connect(token)`, `getClient(token)`
returns the client that connect created (through the map for a
non-empty token, through the default client otherwise). -/
theorem getClient_connectSet (st : GatewayState) (token : String) :
    getClient (connectSet st token) (some token) = some st.nextId := by
  by_cases h : token = ""
  · simp [getClient, connectSet, h]
  · simp [getClient, connectSet, h, lookupAssoc_setAssoc]

/-- Trace invariant: running a trace from a state whose emptiness is
consistent, the default client is the most recent successful connect
since the last disconnect, and when it is absent the client map is
empty. -/
theorem runGwFrom_spec (ops : List GwOp) :
    ∀ st : GatewayState, (st.defaultClient = none → st.clients = []) →
      (runGwFrom st ops).defaultClient =
        lastConnAux ops st.nextId st.defaultClient ∧
      ((runGwFrom st ops).defaultClient = none →
        (runGwFrom st ops).clients = []) := by
  induction ops with
  | nil => intro st h; exact ⟨rfl, h⟩
  | cons op rest ih =>
    intro st h
    cases op with
    | connectOk token =>
      have := ih (connectSet st token) (by simp [connectSet])
      simpa [runGwFrom, applyGwOp, connectSet, lastConnAux] using this
    | connectFail token =>
      have := ih st h
      simpa [runGwFrom, applyGwOp, lastConnAux] using this
    | disconnect =>
      have := ih (disconnectGw st) (by simp [disconnectGw])
      simpa [runGwFrom, applyGwOp, disconnectGw, lastConnAux] using this

/-- The default client of a trace is its most recent successful
connect. -/
theorem runGw_defaultClient (tr : List GwOp) :
    (runGw tr).defaultClient = lastConn tr :=
  (runGwFrom_spec tr initialGateway (fun _ => rfl)).1

/-- When no successful connect happened since the last disconnect, the
client map is empty. -/
theorem runGw_clients_empty (tr : List GwOp) (h : lastConn tr = none) :
    (runGw tr).clients = [] :=
  (runGwFrom_spec tr initialGateway (fun _ => rfl)).2
    ((runGw_defaultClient tr).trans h)

/-! ## Shared concrete instances for witnesses -/

/-- A token resolver that always yields the fixed token `"tok"`. -/
def getTokFixed : Option String → Except McpError String := fun _ => .ok "tok"

/-- An upstream stub on which every interaction succeeds with an empty
payload. -/
def stubOk : UpstreamStub := ⟨fun _ => .ok (), fun _ => .ok ⟨200, .null, ""⟩⟩

/-! ## Claims -/

/-- C1: for every domain command's validity predicate, an input that
supplies the operation tag plus exactly the operation's required fields
(repository domain: create requires name; get, update, delete and fork
require owner and repo; transfer requires owner, repo and new_owner;
list requires nothing) passes the predicate, and for every required
field of that operation, the same input with that one field omitted
fails the predicate. Stated for the four embedded domains: repositories,
issues, branches and actions. -/
theorem claim1_minimal_required_fields :
    (∀ op : RepoOperation,
      manageReposRefine (repoInputWith op (repoRequired op)) = true ∧
      ∀ f ∈ repoRequired op,
        manageReposRefine (repoInputWith op ((repoRequired op).erase f)) =
          false) ∧
    (∀ op : IssueOperation,
      manageIssuesRefine (issueInputWith op (issueRequired op)) = true ∧
      ∀ f ∈ issueRequired op,
        manageIssuesRefine (issueInputWith op ((issueRequired op).erase f)) =
          false) ∧
    (∀ op : BranchOperation,
      manageBranchesRefine (branchInputWith op (branchRequired op)) = true ∧
      ∀ f ∈ branchRequired op,
        manageBranchesRefine
          (branchInputWith op ((branchRequired op).erase f)) = false) ∧
    (∀ op : ActionsOperation,
      manageActionsRefine (actionsInputWith op (actionsRequired op)) = true ∧
      ∀ f ∈ actionsRequired op,
        manageActionsRefine
          (actionsInputWith op ((actionsRequired op).erase f)) = false) := by
  decide

/-- Witness for C1 at the repository transfer operation and its
required field new_owner. -/
theorem claim1_minimal_required_fields_witness :
    manageReposRefine
      (repoInputWith .transfer (repoRequired .transfer)) = true ∧
    manageReposRefine
      (repoInputWith .transfer
        ((repoRequired .transfer).erase .new_owner)) = false :=
  ⟨(claim1_minimal_required_fields.1 .transfer).1,
    (claim1_minimal_required_fields.1 .transfer).2 .new_owner (by decide)⟩

/-- Stub for the C2 counterexample: the connection check succeeds and
the dispatch upstream call fails with an octokit error carrying status
404 and raw message "boom". -/
def c2Stub : UpstreamStub := ⟨fun _ => .ok (), fun _ => .error (.gh 404 "boom")⟩

/-- Input for the C2 counterexample: a structurally valid repository
get request. -/
def c2Input : ManageReposInput :=
  { operation := .get, owner := some "octo-owner", repo := some "octo-repo" }

/-- C2 counterexample: an upstream failure with status 404 raised by
the dispatch call (not the connection check) is caught by the generic
catch of `executeManageRepos`, which wraps it as
`Repository operation failed: <raw message>` without ever passing it
through `handleGitHubError` — the resulting envelope message does not
contain "not found" (even ignoring case), refuting both the
classified-exactly-once claim and the 404-message claim. -/
theorem claim2_counterexample :
    (manageReposExecute getTokFixed c2Stub (.wellTyped c2Input)
      initialGateway).output =
        ⟨["Error: Repository operation failed: boom"], some true⟩ ∧
    strContainsCI "Error: Repository operation failed: boom" "not found" =
      false := by
  decide

/-- C2 amended: failures raised during the connection check pass
through the status-code classifier exactly once before being converted
to an error result (a connect-phase 401 yields a message containing
"invalid or expired" and a connect-phase 404 one containing
"not found"), but failures raised by the dispatch upstream call bypass
the classifier: a non-`McpError` failure with any status and raw
message m becomes the internal error `<domain> operation failed: m`.
Stated on `execPipeline`, the shared body of all three embedded
dispatchers, for every domain prefix. -/
theorem claim2_amended (failPrefix : String)
    (getTok : Option String → Except McpError String) (stub : UpstreamStub)
    (tokenField : Option String) (c : GhCall) (st : GatewayState)
    (token : String) (h : getTok tokenField = .ok token) :
    (∀ t : Thrown, stub.auth token = .error t →
      (execPipeline failPrefix getTok stub tokenField c st).result =
        .error (handleGitHubError t "Failed to connect to GitHub API")) ∧
    (∀ (s : Int) (m : String), stub.auth token = .ok () →
      stub.call c = .error (.gh s m) →
      (execPipeline failPrefix getTok stub tokenField c st).result =
        .error ⟨.internalError, failPrefix ++ m⟩) ∧
    (∀ em : String,
      strContainsCI
        (handleGitHubError (.gh 401 em)
          "Failed to connect to GitHub API").message "invalid or expired" =
        true) ∧
    (∀ em : String,
      strContainsCI
        (handleGitHubError (.gh 404 em)
          "Failed to connect to GitHub API").message "not found" = true) := by
  refine ⟨?_, ?_, ?_, ?_⟩
  · intro t ht
    simp [execPipeline, h, ht]
  · intro s m ha hc
    simp [execPipeline, h, ha, getClient_connectSet, hc, thrownMessage]
  · intro em
    norm_num [handleGitHubError]
    decide
  · intro em
    norm_num [handleGitHubError]
    decide

/-- Witness for the amended C2: the dispatch-phase 404 of the
counterexample stub surfaces unclassified. -/
theorem claim2_amended_witness :
    (execPipeline "Repository operation failed: " getTokFixed c2Stub
      (some "tok") (.reposGet (some "octo-owner") (some "octo-repo"))
      initialGateway).result =
        .error ⟨.internalError, "Repository operation failed: " ++ "boom"⟩ :=
  (claim2_amended "Repository operation failed: " getTokFixed c2Stub
    (some "tok") (.reposGet (some "octo-owner") (some "octo-repo"))
    initialGateway "tok" rfl).2.1 404 "boom" rfl rfl

/-- C3: the classifier maps status 401 to the invalid-or-expired
authentication message, 403 to the forbidden/permissions-or-rate-limit
message, 404 to the resource-not-found message, 422 to the invalid
request parameters message carrying the upstream message, any other
status to an internal error wrapping the raw message, and a status-less
error to an internal error wrapping its message. -/
theorem claim3_classifier (context m : String) :
    handleGitHubError (.gh 401 m) context =
      ⟨.invalidParams,
        context ++ ": Invalid or expired GitHub token. Please check your authentication."⟩ ∧
    handleGitHubError (.gh 403 m) context =
      ⟨.invalidParams,
        context ++ ": Access forbidden. Check your token permissions or rate limits."⟩ ∧
    handleGitHubError (.gh 404 m) context =
      ⟨.invalidParams,
        context ++ ": Resource not found. Check repository/organization names."⟩ ∧
    handleGitHubError (.gh 422 m) context =
      ⟨.invalidParams,
        context ++ ": Invalid request parameters. " ++ jsOr m ""⟩ ∧
    (∀ s : Int, s ≠ 401 → s ≠ 403 → s ≠ 404 → s ≠ 422 →
      handleGitHubError (.gh s m) context =
        ⟨.internalError,
          context ++ ": GitHub API error (" ++ toString s ++ "): " ++
            jsOr m "Unknown error"⟩) ∧
    handleGitHubError (.err m) context =
      ⟨.internalError, context ++ ": " ++ m⟩ := by
  refine ⟨by norm_num [handleGitHubError], by norm_num [handleGitHubError],
    by norm_num [handleGitHubError], by norm_num [handleGitHubError],
    ?_, rfl⟩
  intro s h1 h2 h3 h4
  simp [handleGitHubError, h1, h2, h3, h4]

/-- Witness for C3 at status 500 with a concrete context and
message. -/
theorem claim3_classifier_witness :
    handleGitHubError (.gh 500 "detail") "ctx" =
      ⟨.internalError,
        "ctx" ++ ": GitHub API error (" ++ toString (500 : Int) ++ "): " ++
          jsOr "detail" "Unknown error"⟩ :=
  (claim3_classifier "ctx" "detail").2.2.2.2.1 500 (by decide) (by decide)
    (by decide) (by decide)

/-- C4: for every command, a raw input that fails structural parsing or
the cross-field predicate yields the `Invalid input` error envelope,
leaves the gateway state untouched and issues no upstream call. -/
theorem claim4_invalid_input
    (getTok : Option String → Except McpError String) (stub : UpstreamStub)
    (st : GatewayState) :
    (∀ raw, safeParseRepos raw = none →
      manageReposExecute getTok stub raw st = ⟨invalidInputOutput, st, []⟩) ∧
    (∀ raw, safeParseIssues raw = none →
      manageIssuesExecute getTok stub raw st = ⟨invalidInputOutput, st, []⟩) ∧
    (∀ raw, safeParseActions raw = none →
      manageActionsExecute getTok stub raw st = ⟨invalidInputOutput, st, []⟩) ∧
    strContains "Invalid input: [object Object]" "Invalid input" = true := by
  refine ⟨?_, ?_, ?_, by decide⟩
  · intro raw h
    simp [manageReposExecute, h]
  · intro raw h
    simp [manageIssuesExecute, h]
  · intro raw h
    simp [manageActionsExecute, h]

/-- The C4 scenario input: an issue comment request with valid owner,
repo and issue_number but no comment_body. -/
def c4Input : ManageIssuesInput :=
  { operation := .comment, owner := some "octo-owner",
    repo := some "octo-repo", issue_number := some 5 }

/-- Witness for C4 at the issue-comment scenario: the missing
comment_body fails the predicate, the envelope carries `Invalid input`
with the error flag set, and the gateway is untouched. -/
theorem claim4_invalid_input_witness :
    manageIssuesExecute getTokFixed stubOk (.wellTyped c4Input)
      initialGateway = ⟨invalidInputOutput, initialGateway, []⟩ ∧
    strContains "Invalid input: [object Object]" "Invalid input" = true :=
  ⟨(claim4_invalid_input getTokFixed stubOk initialGateway).2.1
      (.wellTyped c4Input) (by decide),
    (claim4_invalid_input getTokFixed stubOk initialGateway).2.2.2⟩

/-- The gateway state at the return of the shared dispatcher body is
fully disconnected whenever the token resolved. -/
theorem execPipeline_disconnected (failPrefix : String)
    (getTok : Option String → Except McpError String) (stub : UpstreamStub)
    (tokenField : Option String) (c : GhCall) (st : GatewayState)
    (token : String) (h : getTok tokenField = .ok token) :
    (execPipeline failPrefix getTok stub tokenField c st).state.clients =
      [] ∧
    (execPipeline failPrefix getTok stub tokenField c
      st).state.defaultClient = none := by
  unfold execPipeline
  rw [h]
  cases ha : stub.auth token with
  | error t => simp [ha, disconnectGw]
  | ok u =>
    cases hg : getClient (connectSet st token) (some token) with
    | none => simp [ha, hg, disconnectGw]
    | some cl =>
      cases hc : stub.call c with
      | ok resp => simp [ha, hg, hc, disconnectGw]
      | error t => simp [ha, hg, hc, disconnectGw]

/-- C5: for every command execution that reaches the gateway (the token
resolved, so the `try` block was entered), whether it ends in success
or any error, disconnect runs before the dispatcher returns: the
connection map is empty and the default client cleared. -/
theorem claim5_always_disconnect
    (getTok : Option String → Except McpError String) (stub : UpstreamStub)
    (st : GatewayState) (token : String) :
    (∀ data : ManageReposInput, getTok data.token = .ok token →
      (executeManageRepos getTok stub data st).state.clients = [] ∧
      (executeManageRepos getTok stub data st).state.defaultClient = none) ∧
    (∀ data : ManageIssuesInput, getTok data.token = .ok token →
      (executeManageIssues getTok stub data st).state.clients = [] ∧
      (executeManageIssues getTok stub data st).state.defaultClient = none) ∧
    (∀ data : ManageActionsInput, getTok data.token = .ok token →
      (executeManageActions getTok stub data st).state.clients = [] ∧
      (executeManageActions getTok stub data st).state.defaultClient =
        none) := by
  refine ⟨fun data h => ?_, fun data h => ?_, fun data h => ?_⟩
  · exact execPipeline_disconnected "Repository operation failed: " getTok
      stub data.token (repoDispatchCall data) st token h
  · exact execPipeline_disconnected "Issue operation failed: " getTok stub
      data.token (issueDispatchCall data) st token h
  · exact execPipeline_disconnected "GitHub Actions operation failed: "
      getTok stub data.token (actionsDispatchCall data) st token h

/-- Witness for C5: a repository list execution against the always-ok
stub ends with an empty gateway. -/
theorem claim5_always_disconnect_witness :
    (executeManageRepos getTokFixed stubOk { operation := .list }
      initialGateway).state.clients = [] ∧
    (executeManageRepos getTokFixed stubOk { operation := .list }
      initialGateway).state.defaultClient = none :=
  (claim5_always_disconnect getTokFixed stubOk initialGateway "tok").1
    { operation := .list } rfl

/-- C6 counterexample: the resolver's levels are guarded by JS
truthiness, so a present-but-empty explicit token is not returned — it
falls through to the CLI value, and when the other sources are also
absent the resolver fails even though the explicit value was present.
Both prongs of the claim ("returns the explicit per-call token when
present", "fails exactly when all three are absent") fail at the
explicit empty string. -/
theorem claim6_counterexample :
    getGitHubToken (some "") (some "B") (some "C") = .ok "B" ∧
    getGitHubToken (some "") (some "B") (some "C") ≠ .ok "" ∧
    getGitHubToken (some "") none none = .error missingTokenError := by
  have h1 : getGitHubToken (some "") (some "B") (some "C") = .ok "B" := rfl
  refine ⟨h1, ?_, rfl⟩
  intro h
  rw [h1] at h
  exact (by decide : ("B" : String) ≠ "") (Except.ok.inj h)

/-- C6 amended: credential resolution obeys strict precedence explicit
> process-level flag > environment variable among truthy (present and
non-empty) values: it returns the explicit per-call token when present
and non-empty, else the process-level value when present and non-empty,
else the environment value when present and non-empty, and fails with
the no-token `McpError` exactly when every level is absent or empty; as
a plain function of its three inputs it is pure by construction. -/
theorem claim6_amended :
    (∀ (t : String) (p v : Option String), t ≠ "" →
      getGitHubToken (some t) p v = .ok t) ∧
    (∀ (e : Option String) (t : String) (v : Option String),
      truthyS e = false → t ≠ "" →
      getGitHubToken e (some t) v = .ok t) ∧
    (∀ (e p : Option String) (t : String),
      truthyS e = false → truthyS p = false → t ≠ "" →
      getGitHubToken e p (some t) = .ok t) ∧
    (∀ e p v : Option String,
      truthyS e = false → truthyS p = false → truthyS v = false →
      getGitHubToken e p v = .error missingTokenError) := by
  refine ⟨?_, ?_, ?_, ?_⟩
  · intro t p v ht
    simp [getGitHubToken, truthyS, ht]
  · intro e t v he ht
    unfold getGitHubToken
    rw [he]
    simp [truthyS, ht]
  · intro e p t he hp ht
    unfold getGitHubToken
    rw [he, hp]
    simp [truthyS, ht]
  · intro e p v he hp hv
    simp [getGitHubToken, he, hp, hv]

/-- Witness for the amended C6 at the spec's precedence example:
explicit "A", process "B", environment "C" resolves "A". -/
theorem claim6_amended_witness :
    getGitHubToken (some "A") (some "B") (some "C") = .ok "A" :=
  claim6_amended.1 "A" (some "B") (some "C") (by decide)

/-- The C7 stub payload `id:123, name:"demo", full_name:"user/demo"`. -/
def c7Payload : Json :=
  .obj [("id", .num 123), ("name", .str "demo"),
        ("full_name", .str "user/demo")]

/-- The C7 upstream stub: every call succeeds with the stub payload. -/
def c7Stub : UpstreamStub := ⟨fun _ => .ok (), fun _ => .ok ⟨201, c7Payload, ""⟩⟩

/-- The C7 run: the repository tool on `operation:"create",
name:"demo"`. -/
def c7Run : ToolRun :=
  manageReposExecute getTokFixed c7Stub
    (.wellTyped { operation := .create, name := some "demo" }) initialGateway

/-- C7: the repository-create scenario returns an envelope whose error
flag is not set, whose first text segment contains "create operation
completed successfully", and whose second text segment parses as JSON
equal to the stub payload. -/
theorem claim7_create_scenario :
    c7Run.output.isError = none ∧
    c7Run.output.content =
      ["Repository create operation completed successfully",
        jsonStringify c7Payload] ∧
    strContains "Repository create operation completed successfully"
      "create operation completed successfully" = true ∧
    jsonParse (jsonStringify c7Payload) = some c7Payload :=
  ⟨rfl, rfl, by decide, rfl⟩

/-- C8: every valid trigger_workflow request whose ref field is absent
issues the workflow-dispatch upstream call with ref equal to the
literal "main" (not the repository's actual default branch — no
default-branch lookup occurs, as the call list shows), and with inputs
`input.inputs || \x7b\x7d` — the supplied record when present, the
empty object exactly when absent. -/
theorem claim8_trigger_default_ref
    (getTok : Option String → Except McpError String) (stub : UpstreamStub)
    (st : GatewayState) (token : String) (data : ManageActionsInput)
    (hop : data.operation = .trigger_workflow) (href : data.ref = none)
    (_hval : manageActionsRefine data = true)
    (htok : getTok data.token = .ok token)
    (hauth : stub.auth token = .ok ()) :
    (executeManageActions getTok stub data st).calls =
      [.getAuthenticated token,
        .actionsCreateWorkflowDispatch data.owner data.repo data.workflow_id
          "main" (data.inputs.getD [])] := by
  have hcall : actionsDispatchCall data =
      .actionsCreateWorkflowDispatch data.owner data.repo data.workflow_id
        "main" (data.inputs.getD []) := by
    simp [actionsDispatchCall, hop, href, jsOrOpt]
  unfold executeManageActions execPipeline
  rw [htok, hcall]
  cases hsc : stub.call (.actionsCreateWorkflowDispatch data.owner data.repo
      data.workflow_id "main" (data.inputs.getD [])) with
  | ok resp => simp [hauth, getClient_connectSet, hsc]
  | error t => simp [hauth, getClient_connectSet, hsc]

/-- The C8 witness input: a valid ref-absent trigger_workflow request
that does supply workflow inputs. -/
def c8Input : ManageActionsInput :=
  { operation := .trigger_workflow, owner := some "octo-owner",
    repo := some "octo-repo", workflow_id := some (.s "ci.yml"),
    inputs := some [("env", .s "prod")] }

/-- Witness for C8: the ref defaults to "main" while the supplied
inputs pass through unchanged. -/
theorem claim8_trigger_default_ref_witness :
    (executeManageActions getTokFixed stubOk c8Input initialGateway).calls =
      [.getAuthenticated "tok",
        .actionsCreateWorkflowDispatch (some "octo-owner")
          (some "octo-repo") (some (.s "ci.yml")) "main"
          [("env", .s "prod")]] :=
  claim8_trigger_default_ref getTokFixed stubOk initialGateway "tok" c8Input
    rfl rfl (by decide) rfl rfl

/-- C9 counterexample: after connecting with the empty-string
credential (client 0) and then with "octo" (client 1), the map holds a
connection for the empty credential, yet getClient on it returns
client 1 — the JS truthiness guard `if (token && ...)` skips the map
lookup for an empty token, so the held connection is not returned. -/
theorem claim9_counterexample :
    lookupAssoc (runGw [.connectOk "", .connectOk "octo"]).clients "" =
      some 0 ∧
    getClient (runGw [.connectOk "", .connectOk "octo"]) (some "") =
      some 1 := by
  decide

/-- C9 amended: getClient returns the held connection for the given
non-empty credential when one exists; for every credential not held in
the map, and when no credential is given, it returns the most recently
connected client; it fails exactly when no connection has been
established since the last disconnect. -/
theorem claim9_amended :
    (∀ (st : GatewayState) (t : String) (c : Nat), t ≠ "" →
      lookupAssoc st.clients t = some c → getClient st (some t) = some c) ∧
    (∀ tr : List GwOp, getClient (runGw tr) none = lastConn tr) ∧
    (∀ (tr : List GwOp) (t : String),
      lookupAssoc (runGw tr).clients t = none →
      getClient (runGw tr) (some t) = lastConn tr) ∧
    (∀ (tr : List GwOp) (t? : Option String),
      getClient (runGw tr) t? = none ↔ lastConn tr = none) := by
  refine ⟨?_, ?_, ?_, ?_⟩
  · intro st t c ht hl
    simp [getClient, ht, hl]
  · intro tr
    simp [getClient, runGw_defaultClient]
  · intro tr t hl
    by_cases ht : t = ""
    · simp [getClient, ht, runGw_defaultClient]
    · simp [getClient, ht, hl, runGw_defaultClient]
  · intro tr t?
    constructor
    · intro h
      cases t? with
      | none => simpa [getClient, runGw_defaultClient] using h
      | some t =>
        by_cases ht : t = ""
        · simpa [getClient, ht, runGw_defaultClient] using h
        · cases hl : lookupAssoc (runGw tr).clients t with
          | some c => simp [getClient, ht, hl] at h
          | none => simpa [getClient, ht, hl, runGw_defaultClient] using h
    · intro h
      have hc := runGw_clients_empty tr h
      have hd := (runGw_defaultClient tr).trans h
      cases t? with
      | none => simp [getClient, hd]
      | some t =>
        by_cases ht : t = ""
        · simp [getClient, ht, hd]
        · simp [getClient, ht, hc, lookupAssoc, hd]

/-- Witness for the amended C9: after one successful connect with
"octo", getClient "octo" returns that held connection. -/
theorem claim9_amended_witness :
    getClient (runGw [.connectOk "octo"]) (some "octo") = some 0 :=
  claim9_amended.1 (runGw [.connectOk "octo"]) "octo" 0 (by decide)
    (by decide)

/-- C10: an issue assign (resp. label) dispatch whose assignees (resp.
labels) field is absent calls the upstream issue-update with that field
present as the explicit empty array — clearing existing values — rather
than omitting it. -/
theorem claim10_assign_label_clear
    (getTok : Option String → Except McpError String) (stub : UpstreamStub)
    (st : GatewayState) (token : String) (data : ManageIssuesInput)
    (htok : getTok data.token = .ok token)
    (hauth : stub.auth token = .ok ()) :
    (data.operation = .assign → data.assignees = none →
      (executeManageIssues getTok stub data st).calls =
        [.getAuthenticated token,
          .issuesUpdate data.owner data.repo data.issue_number none none
            none none none (some []) none]) ∧
    (data.operation = .label → data.labels = none →
      (executeManageIssues getTok stub data st).calls =
        [.getAuthenticated token,
          .issuesUpdate data.owner data.repo data.issue_number none none
            none none (some []) none none]) := by
  constructor
  · intro hop hass
    have hcall : issueDispatchCall data =
        .issuesUpdate data.owner data.repo data.issue_number none none none
          none none (some []) none := by
      simp [issueDispatchCall, hop, hass]
    unfold executeManageIssues execPipeline
    rw [htok, hcall]
    cases hsc : stub.call (.issuesUpdate data.owner data.repo
        data.issue_number none none none none none (some []) none) with
    | ok resp => simp [hauth, getClient_connectSet, hsc]
    | error t => simp [hauth, getClient_connectSet, hsc]
  · intro hop hlab
    have hcall : issueDispatchCall data =
        .issuesUpdate data.owner data.repo data.issue_number none none none
          none (some []) none none := by
      simp [issueDispatchCall, hop, hlab]
    unfold executeManageIssues execPipeline
    rw [htok, hcall]
    cases hsc : stub.call (.issuesUpdate data.owner data.repo
        data.issue_number none none none none (some []) none none) with
    | ok resp => simp [hauth, getClient_connectSet, hsc]
    | error t => simp [hauth, getClient_connectSet, hsc]

/-- Witness for C10 at a concrete assign request with no assignees
field. -/
theorem claim10_assign_label_clear_witness :
    (executeManageIssues getTokFixed stubOk
      { operation := .assign, owner := some "octo-owner",
        repo := some "octo-repo", issue_number := some 7 }
      initialGateway).calls =
      [.getAuthenticated "tok",
        .issuesUpdate (some "octo-owner") (some "octo-repo") (some 7) none
          none none none none (some []) none] :=
  (claim10_assign_label_clear getTokFixed stubOk initialGateway "tok"
    { operation := .assign, owner := some "octo-owner",
      repo := some "octo-repo", issue_number := some 7 } rfl rfl).1 rfl rfl

end GithubMcp
